import Mathlib

/-!
Shallow embedding of the nxdk-sdl Xbox joystick driver
(`src/src/joystick/xbox/SDL_xboxjoystick.c`) and proofs about the
claims of its specification.

Modelling conventions:
* Machine bytes are `Nat` values reduced modulo 256 at each read
  (`byte`); 16-bit words are `Nat` below 2^16; signed 16-bit values
  are `Int` in `[-32768, 32767]` obtained by `toS16`.
* A raw report / report buffer is a total function `Nat → Nat`
  (index to byte); the C code only ever reads fixed small offsets.
* Event emission (`SDL_PrivateJoystickHat/Button/Axis` calls issued by
  `SDL_XBOX_JoystickUpdate`) is modelled as a list of `Event` values,
  in the order the calls occur in the C code.
-/

namespace NxdkSDL

/-- Read a byte of a raw report: C `Uint8` access, reduced mod 256. -/
def byte (r : Nat → Nat) (i : Nat) : Nat := r i % 256

/-- C `*((Uint16*)&rdata[i])`: little-endian 16-bit read. -/
def u16le (r : Nat → Nat) (i : Nat) : Nat := byte r i + 256 * byte r (i + 1)

/-- Reinterpret a 16-bit word as a signed 16-bit value (C `Sint16`). -/
def toS16 (v : Nat) : Int :=
  if v % 65536 < 32768 then ((v % 65536 : Nat) : Int)
  else ((v % 65536 : Nat) : Int) - 65536

/-- C `*((Sint16*)&rdata[i])`: little-endian signed 16-bit read. -/
def s16le (r : Nat → Nat) (i : Nat) : Int := toS16 (u16le r i)

/-- C `~axis` on an in-range `Sint16` promoted to `int`: bitwise not. -/
def cnot16 (a : Int) : Int := -a - 1

-- XINPUT button masks, from SDL_xboxjoystick.c
def XINPUT_GAMEPAD_DPAD_UP : Nat := 0x0001
def XINPUT_GAMEPAD_DPAD_DOWN : Nat := 0x0002
def XINPUT_GAMEPAD_DPAD_LEFT : Nat := 0x0004
def XINPUT_GAMEPAD_DPAD_RIGHT : Nat := 0x0008
def XINPUT_GAMEPAD_START : Nat := 0x0010
def XINPUT_GAMEPAD_BACK : Nat := 0x0020
def XINPUT_GAMEPAD_LEFT_THUMB : Nat := 0x0040
def XINPUT_GAMEPAD_RIGHT_THUMB : Nat := 0x0080
def XINPUT_GAMEPAD_LEFT_SHOULDER : Nat := 0x0100
def XINPUT_GAMEPAD_RIGHT_SHOULDER : Nat := 0x0200
def XINPUT_GAMEPAD_A : Nat := 0x1000
def XINPUT_GAMEPAD_B : Nat := 0x2000
def XINPUT_GAMEPAD_X : Nat := 0x4000
def XINPUT_GAMEPAD_Y : Nat := 0x8000

def BUTTON_DEADZONE : Nat := 0x20
def MAX_PACKET_SIZE : Nat := 32

-- SDL hat position constants (SDL_joystick.h, outside src/; the exact
-- numeric values are irrelevant to the claims, only used via equality).
def SDL_HAT_CENTERED : Nat := 0x00
def SDL_HAT_UP : Nat := 0x01
def SDL_HAT_RIGHT : Nat := 0x02
def SDL_HAT_DOWN : Nat := 0x04
def SDL_HAT_LEFT : Nat := 0x08

/-- The `hdev->type` tag: the four recognized controller families plus
an arbitrary unrecognized tag (C `default` switch branches). -/
inductive Family where
  | XBOXOG_CONTROLLER
  | XBOX360_WIRED
  | XBOX360_WIRELESS
  | XBOXONE
  | other (tag : Nat)
deriving DecidableEq

/-- C struct `_XINPUT_GAMEPAD`: the canonical decoded gamepad state. -/
structure XINPUT_GAMEPAD where
  wButtons : Nat
  bLeftTrigger : Nat
  bRightTrigger : Nat
  sThumbLX : Int
  sThumbLY : Int
  sThumbRX : Int
  sThumbRY : Int
deriving DecidableEq

/-- C pattern `if (w & (1 << srcBit)) controller->wButtons |= mask`. -/
def bmap (w srcBit mask : Nat) : Nat :=
  if w &&& (1 <<< srcBit) ≠ 0 then mask else 0

/-- `XBOXOG_CONTROLLER` branch of `xboxjoy_parse_input_data`:
digital buttons from the bitmask at offset 2 (bits 0-7), analog
buttons (A/B/X/Y/Black/White) from bytes 4-9 against the deadzone. -/
def og_wButtons (r : Nat → Nat) : Nat :=
  let w := u16le r 2
  bmap w 0 XINPUT_GAMEPAD_DPAD_UP |||
  bmap w 1 XINPUT_GAMEPAD_DPAD_DOWN |||
  bmap w 2 XINPUT_GAMEPAD_DPAD_LEFT |||
  bmap w 3 XINPUT_GAMEPAD_DPAD_RIGHT |||
  bmap w 4 XINPUT_GAMEPAD_START |||
  bmap w 5 XINPUT_GAMEPAD_BACK |||
  bmap w 6 XINPUT_GAMEPAD_LEFT_THUMB |||
  bmap w 7 XINPUT_GAMEPAD_RIGHT_THUMB |||
  (if byte r 4 > BUTTON_DEADZONE then XINPUT_GAMEPAD_A else 0) |||
  (if byte r 5 > BUTTON_DEADZONE then XINPUT_GAMEPAD_B else 0) |||
  (if byte r 6 > BUTTON_DEADZONE then XINPUT_GAMEPAD_X else 0) |||
  (if byte r 7 > BUTTON_DEADZONE then XINPUT_GAMEPAD_Y else 0) |||
  (if byte r 8 > BUTTON_DEADZONE then XINPUT_GAMEPAD_RIGHT_SHOULDER else 0) |||
  (if byte r 9 > BUTTON_DEADZONE then XINPUT_GAMEPAD_LEFT_SHOULDER else 0)

/-- Button-bitmask mapping shared verbatim by the `XBOX360_WIRED` and
`XBOX360_WIRELESS` branches of `xboxjoy_parse_input_data` (the C code
repeats this block twice, once per branch). -/
def x360_wButtons (w : Nat) : Nat :=
  bmap w 0 XINPUT_GAMEPAD_DPAD_UP |||
  bmap w 1 XINPUT_GAMEPAD_DPAD_DOWN |||
  bmap w 2 XINPUT_GAMEPAD_DPAD_LEFT |||
  bmap w 3 XINPUT_GAMEPAD_DPAD_RIGHT |||
  bmap w 4 XINPUT_GAMEPAD_START |||
  bmap w 5 XINPUT_GAMEPAD_BACK |||
  bmap w 6 XINPUT_GAMEPAD_LEFT_THUMB |||
  bmap w 7 XINPUT_GAMEPAD_RIGHT_THUMB |||
  bmap w 8 XINPUT_GAMEPAD_LEFT_SHOULDER |||
  bmap w 9 XINPUT_GAMEPAD_RIGHT_SHOULDER |||
  bmap w 12 XINPUT_GAMEPAD_A |||
  bmap w 13 XINPUT_GAMEPAD_B |||
  bmap w 14 XINPUT_GAMEPAD_X |||
  bmap w 15 XINPUT_GAMEPAD_Y

/-- `XBOXONE` branch button-bitmask mapping of `xboxjoy_parse_input_data`. -/
def xone_wButtons (w : Nat) : Nat :=
  bmap w 8 XINPUT_GAMEPAD_DPAD_UP |||
  bmap w 9 XINPUT_GAMEPAD_DPAD_DOWN |||
  bmap w 10 XINPUT_GAMEPAD_DPAD_LEFT |||
  bmap w 11 XINPUT_GAMEPAD_DPAD_RIGHT |||
  bmap w 2 XINPUT_GAMEPAD_START |||
  bmap w 3 XINPUT_GAMEPAD_BACK |||
  bmap w 14 XINPUT_GAMEPAD_LEFT_THUMB |||
  bmap w 15 XINPUT_GAMEPAD_RIGHT_THUMB |||
  bmap w 12 XINPUT_GAMEPAD_LEFT_SHOULDER |||
  bmap w 13 XINPUT_GAMEPAD_RIGHT_SHOULDER |||
  bmap w 4 XINPUT_GAMEPAD_A |||
  bmap w 5 XINPUT_GAMEPAD_B |||
  bmap w 6 XINPUT_GAMEPAD_X |||
  bmap w 7 XINPUT_GAMEPAD_Y

/-- `xboxjoy_parse_input_data`: per-family decode of a raw report into
a canonical `XINPUT_GAMEPAD`. Returns `none` for the C `default`
branch (function result 0), `some` for result 1. -/
def xboxjoy_parse_input_data (family : Family) (rdata : Nat → Nat) :
    Option XINPUT_GAMEPAD :=
  match family with
  | .XBOXOG_CONTROLLER => some
      { wButtons := og_wButtons rdata
        bLeftTrigger := byte rdata 10
        bRightTrigger := byte rdata 11
        sThumbLX := s16le rdata 12
        sThumbLY := s16le rdata 14
        sThumbRX := s16le rdata 16
        sThumbRY := s16le rdata 18 }
  | .XBOX360_WIRED => some
      { wButtons := x360_wButtons (u16le rdata 2)
        bLeftTrigger := byte rdata 4
        bRightTrigger := byte rdata 5
        sThumbLX := s16le rdata 6
        sThumbLY := s16le rdata 8
        sThumbRX := s16le rdata 10
        sThumbRY := s16le rdata 12 }
  | .XBOX360_WIRELESS => some
      { wButtons := x360_wButtons (u16le rdata 6)
        bLeftTrigger := byte rdata 8
        bRightTrigger := byte rdata 9
        sThumbLX := s16le rdata 10
        sThumbLY := s16le rdata 12
        sThumbRX := s16le rdata 14
        sThumbRY := s16le rdata 16 }
  | .XBOXONE => some
      { wButtons := xone_wButtons (u16le rdata 4)
        bLeftTrigger := byte rdata 6
        bRightTrigger := byte rdata 8
        sThumbLX := s16le rdata 10
        sThumbLY := s16le rdata 12
        sThumbRX := s16le rdata 14
        sThumbRY := s16le rdata 16 }
  | .other _ => none

/-- Previous joystick state stored by the SDL core (`joystick->hats[0]`,
`joystick->buttons[i]`, `joystick->axes[i].value`) that
`SDL_XBOX_JoystickUpdate` diffs against. -/
structure JoyState where
  hat : Nat
  buttons : Nat → Bool
  axes : Nat → Int

/-- One emitted SDL event: a call to `SDL_PrivateJoystickHat`,
`SDL_PrivateJoystickButton` or `SDL_PrivateJoystickAxis` made by
`SDL_XBOX_JoystickUpdate`. -/
inductive Event where
  | hatEvent (which : Nat) (value : Nat)
  | buttonEvent (idx : Nat) (pressed : Bool)
  | axisEvent (idx : Nat) (value : Int)
deriving DecidableEq

/-- The hat accumulation in `SDL_XBOX_JoystickUpdate`
(`hat = SDL_HAT_CENTERED; if (w & DPAD_*) hat |= SDL_HAT_*`). -/
def deriveHat (w : Nat) : Nat :=
  SDL_HAT_CENTERED |||
  (if w &&& XINPUT_GAMEPAD_DPAD_UP ≠ 0 then SDL_HAT_UP else 0) |||
  (if w &&& XINPUT_GAMEPAD_DPAD_DOWN ≠ 0 then SDL_HAT_DOWN else 0) |||
  (if w &&& XINPUT_GAMEPAD_DPAD_LEFT ≠ 0 then SDL_HAT_LEFT else 0) |||
  (if w &&& XINPUT_GAMEPAD_DPAD_RIGHT ≠ 0 then SDL_HAT_RIGHT else 0)

/-- The `btn_map` table of `SDL_XBOX_JoystickUpdate`:
(SDL button index, XINPUT mask), iterated in array order. -/
def btn_map : List (Nat × Nat) :=
  [(0, XINPUT_GAMEPAD_A),
   (1, XINPUT_GAMEPAD_B),
   (2, XINPUT_GAMEPAD_X),
   (3, XINPUT_GAMEPAD_Y),
   (4, XINPUT_GAMEPAD_LEFT_SHOULDER),
   (5, XINPUT_GAMEPAD_RIGHT_SHOULDER),
   (6, XINPUT_GAMEPAD_BACK),
   (7, XINPUT_GAMEPAD_START),
   (8, XINPUT_GAMEPAD_LEFT_THUMB),
   (9, XINPUT_GAMEPAD_RIGHT_THUMB)]

/-- Trigger-to-axis remap in `SDL_XBOX_JoystickUpdate`:
C `((b << 8) | b) - (1 << 15)` (computed in `int`, in `Sint16` range). -/
def triggerAxisValue (raw : Nat) : Int :=
  ((((raw <<< 8) ||| raw : Nat)) : Int) - 32768

/-- Event-emitting diff of `SDL_XBOX_JoystickUpdate` (the code after a
successful `xboxjoy_parse_input_data`), translated statement by
statement: hat comparison, the `btn_map` loop, left/right trigger
comparisons (axes 2 and 5), then the four stick axes (0, 1, 3, 4; Y
axes are emitted bit-complemented). The result lists the
`SDL_PrivateJoystick*` calls in program order. -/
def updateEvents (xpad : XINPUT_GAMEPAD) (prev : JoyState) : List Event :=
  (if deriveHat xpad.wButtons ≠ prev.hat
     then [Event.hatEvent 0 (deriveHat xpad.wButtons)] else []) ++
  btn_map.filterMap (fun p =>
    if prev.buttons p.1 != ((xpad.wButtons &&& p.2) != 0)
      then some (Event.buttonEvent p.1 ((xpad.wButtons &&& p.2) != 0))
      else none) ++
  (if (xpad.bLeftTrigger : Int) ≠ prev.axes 2
     then [Event.axisEvent 2 (triggerAxisValue xpad.bLeftTrigger)] else []) ++
  (if (xpad.bRightTrigger : Int) ≠ prev.axes 5
     then [Event.axisEvent 5 (triggerAxisValue xpad.bRightTrigger)] else []) ++
  (if xpad.sThumbLX ≠ prev.axes 0
     then [Event.axisEvent 0 xpad.sThumbLX] else []) ++
  (if xpad.sThumbLY ≠ prev.axes 1
     then [Event.axisEvent 1 (cnot16 xpad.sThumbLY)] else []) ++
  (if xpad.sThumbRX ≠ prev.axes 3
     then [Event.axisEvent 3 xpad.sThumbRX] else []) ++
  (if xpad.sThumbRY ≠ prev.axes 4
     then [Event.axisEvent 4 (cnot16 xpad.sThumbRY)] else [])

/-- The events of one full polling tick of `SDL_XBOX_JoystickUpdate`
for a given raw-report buffer: decode, then diff; a failed decode
(unrecognized family) emits nothing. -/
def tickEvents (family : Family) (buf : Nat → Nat) (prev : JoyState) :
    List Event :=
  match xboxjoy_parse_input_data family buf with
  | none => []
  | some xpad => updateEvents xpad prev

/-- Per-slot driver data, C struct `joystick_hwdata` (minus the raw
device pointer): the 32-byte raw report buffer, the stored rumble
magnitude pair `current_rumble[2]` (split into two fields) and the
rumble expiry tick (`0` meaning unset). -/
structure joystick_hwdata where
  raw_data : Nat → Nat
  current_rumble0 : Nat
  current_rumble1 : Nat
  rumble_expiry : Nat

/-- The length cap in `xboxjoy_int_read_callback`:
`if (data_len > MAX_PACKET_SIZE) data_len = MAX_PACKET_SIZE`. -/
def cappedLen (data_len : Nat) : Nat :=
  if data_len > MAX_PACKET_SIZE then MAX_PACKET_SIZE else data_len

/-- `SDL_memcpy(raw_data, rdata, n)` into a buffer: indices below `n`
take the incoming bytes, all other indices keep the old contents. -/
def memcpyReport (buf rdata : Nat → Nat) (n : Nat) : Nat → Nat :=
  fun i => if i < n then rdata i else buf i

/-- Guard structure of `xboxjoy_int_read_callback`: the callback copies
the report only when the status/slot checks and the per-family
structural check all pass (each C `return` makes this false). -/
def report_accepted (family : Family) (status : Int) (hasJoy : Bool)
    (rdata : Nat → Nat) : Bool :=
  if status < 0 ∨ hasJoy = false then false
  else
    match family with
    | .XBOXOG_CONTROLLER | .XBOX360_WIRED =>
        if byte rdata 1 < 0x14 then false else true
    | .XBOX360_WIRELESS =>
        if byte rdata 1 &&& 0x01 = 0 ∨ byte rdata 5 ≠ 0x13 then false else true
    | .XBOXONE =>
        if byte rdata 0 ≠ 0x20 then false else true
    | .other _ => false

/-- `xboxjoy_int_read_callback`, as a transformer of the slot's raw
report buffer: on acceptance it copies `min(data_len, 32)` bytes, on
any early `return` it leaves the buffer untouched. -/
def xboxjoy_int_read_callback (family : Family) (status : Int)
    (hasJoy : Bool) (rdata : Nat → Nat) (data_len : Nat)
    (buf : Nat → Nat) : Nat → Nat :=
  if report_accepted family status hasJoy rdata then
    memcpyReport buf rdata (cappedLen data_len)
  else buf

/-- The family-specific structural check as worded by the spec
(§4.1): OriginalXbox/Xbox360Wired need byte 1 ≥ 0x14; Xbox360Wireless
needs bit 0 of byte 1 set and byte 5 = 0x13; XboxOne needs byte 0 =
0x20; every other tag is rejected. Stated from the spec's words, to be
compared with `report_accepted`. -/
def familyCheckSpec (family : Family) (rdata : Nat → Nat) : Bool :=
  match family with
  | .XBOXOG_CONTROLLER | .XBOX360_WIRED => 0x14 ≤ byte rdata 1
  | .XBOX360_WIRELESS => (byte rdata 1).testBit 0 && byte rdata 5 == 0x13
  | .XBOXONE => byte rdata 0 == 0x20
  | .other _ => false

/-- Packet-building part of `xboxjoy_rumble`: each family copies its
fixed template into `writeBuf` and overwrites the magnitude bytes at
fixed offsets (`Uint8` stores, hence mod 256); the C `default` branch
returns -1 before any write, modelled as `none`. -/
def xboxjoy_rumble_encode (family : Family) (low high : Nat) :
    Option (List Nat) :=
  match family with
  | .XBOX360_WIRELESS => some
      [0x00, 0x01, 0x0F, 0xC0, 0x00, (low >>> 8) % 256, (high >>> 8) % 256, 0x00]
  | .XBOX360_WIRED => some
      [0x00, 0x08, 0x00, (low >>> 8) % 256, (high >>> 8) % 256, 0x00, 0x00, 0x00]
  | .XBOXOG_CONTROLLER => some
      [0x00, 0x06, low % 256, (low >>> 8) % 256, high % 256, (high >>> 8) % 256]
  | .XBOXONE => some
      [0x09, 0x00, 0x00, 0x09, 0x00, 0x0f, 0x00, 0x00,
       (low / 655) % 256, (high / 655) % 256, 0xFF, 0x00, 0xEB]
  | .other _ => none

/-- `xboxjoy_rumble`: encode then write. The result pairs the packet
handed to `usbh_hid_int_write` (if any) with the C return value; the
transport write outcome is the external parameter `writeOk`. -/
def xboxjoy_rumble (family : Family) (low high : Nat) (writeOk : Bool) :
    Option (List Nat) × Int :=
  match xboxjoy_rumble_encode family low high with
  | none => (none, -1)
  | some pkt => (some pkt, if writeOk then 0 else -1)

/-- `SDL_XBOX_JoystickRumble`: identical stored magnitudes only refresh
the expiry (`SDL_GetTicks() + duration_ms`, a `Uint32` sum); otherwise
encode/write and, on success, store the new pair and expiry. Returns
(new slot state, packet handed to the transport, C return value). -/
def SDL_XBOX_JoystickRumble (family : Family) (now : Nat)
    (hw : joystick_hwdata) (low high duration : Nat) (writeOk : Bool) :
    joystick_hwdata × Option (List Nat) × Int :=
  if hw.current_rumble0 = low ∧ hw.current_rumble1 = high then
    ({ hw with rumble_expiry := (now + duration) % 4294967296 }, none, 0)
  else
    match xboxjoy_rumble_encode family low high with
    | none => (hw, none, -1)
    | some pkt =>
        if writeOk then
          ({ hw with current_rumble0 := low, current_rumble1 := high,
                     rumble_expiry := (now + duration) % 4294967296 },
           some pkt, 0)
        else (hw, some pkt, -1)

/-- Rumble-expiry step at the top of `SDL_XBOX_JoystickUpdate`:
`if (rumble_expiry && SDL_GetTicks() > rumble_expiry)` issue a
zero-magnitude `xboxjoy_rumble` and zero the expiry field. The second
component lists the (low, high) rumble commands issued. -/
def update_rumble_expiry (now : Nat) (hw : joystick_hwdata) :
    joystick_hwdata × List (Nat × Nat) :=
  if hw.rumble_expiry ≠ 0 ∧ now > hw.rumble_expiry then
    ({ hw with rumble_expiry := 0 }, [(0, 0)])
  else (hw, [])

/-- The recognized-gamepad filter used by `hdev_from_device_index`,
`SDL_XBOX_JoystickGetCount` and `SDL_XBOX_JoystickOpen`. -/
def isGamepad (f : Family) : Bool :=
  match f with
  | .XBOXOG_CONTROLLER | .XBOXONE | .XBOX360_WIRED | .XBOX360_WIRELESS => true
  | .other _ => false

/-- Outcome of the `hdev_from_device_index` scan. `found f` is an
in-loop `return hdev`. `assertNull` is the fall-through path
`assert(0); return hdev` with `hdev == NULL`: in a build with
assertions enabled (no `NDEBUG`, the C default) `assert(0)` aborts the
process there; under `NDEBUG` the assert is a no-op and the null
`hdev` is returned. -/
inductive ResolveOutcome where
  | found (f : Family)
  | assertNull
deriving DecidableEq

/-- Scan loop of `hdev_from_device_index`: walk the transport's device
list counting recognized gamepads, returning the one whose gamepad
rank equals `target`; running off the list end reaches the
`assert(0); return hdev` line, recorded as `ResolveOutcome.assertNull`. -/
def hdev_scan (devs : List Family) (target i : Nat) : ResolveOutcome :=
  match devs with
  | [] => .assertNull
  | f :: rest =>
      if isGamepad f then
        if i = target then .found f else hdev_scan rest target (i + 1)
      else hdev_scan rest target i

/-- `hdev_from_device_index`: resolve a transient device index against
the current transport device list (each device abstracted to its
family tag). -/
def hdev_from_device_index (devs : List Family) (device_index : Nat) :
    ResolveOutcome :=
  hdev_scan devs device_index 0

/-- The value `hdev_from_device_index` returns in an `NDEBUG` build,
where `assert(0)` is a no-op and the fall-through returns the null
`hdev` (`none`). In an assert-enabled build the `assertNull` case
never returns: the process aborts at line 208. -/
def hdev_resolve_ndebug (devs : List Family) (device_index : Nat) :
    Option Family :=
  match hdev_from_device_index devs device_index with
  | .found f => some f
  | .assertNull => none

/-- `SDL_XBOX_JoystickOpen`, abstracted to its observable outcome:
(C return value, slot allocated and retained, interrupt read callback
installed), under `NDEBUG` semantics of the index resolution (in an
assert-enabled build an out-of-range index aborts inside
`hdev_from_device_index` and open never returns). A null resolution
returns -1 before allocating; an unrecognized family frees the fresh
slot and returns -1 before `usbh_hid_start_int_read`. -/
def SDL_XBOX_JoystickOpen (devs : List Family) (device_index : Nat) :
    Int × Bool × Bool :=
  match hdev_resolve_ndebug devs device_index with
  | none => (-1, false, false)
  | some f =>
      match f with
      | .XBOXOG_CONTROLLER | .XBOXONE | .XBOX360_WIRELESS | .XBOX360_WIRED =>
          (0, true, true)
      | .other _ => (-1, false, false)

/-! ## Helper lemmas -/

/-- Bitwise AND distributes over bitwise OR on `Nat`. -/
theorem land_lor_distrib (a b m : Nat) :
    (a ||| b) &&& m = (a &&& m) ||| (b &&& m) := by
  apply Nat.eq_of_testBit_eq
  intro i
  simp only [Nat.testBit_land, Nat.testBit_lor, Bool.and_or_distrib_right]

/-- AND of a conditional mask. -/
theorem ite_land (c : Prop) [Decidable c] (m k : Nat) :
    (if c then m else 0) &&& k = if c then m &&& k else 0 := by
  split <;> simp

set_option maxRecDepth 4096 in
/-- Shift-or form of the trigger remap equals the arithmetic form for
byte inputs. -/
theorem shiftLeft_lor_eq_mul_add :
    ∀ raw : Fin 256, ((raw.val <<< 8) ||| raw.val) = raw.val * 256 + raw.val := by
  decide

/-! ## Claim theorems -/

/-- C2: for every 8-bit trigger value `raw`, the signed trigger axis
emitted by the update step equals `(raw<<8 | raw) - 32768`; in
particular 0x00 maps to -32768 and 0xFF to 32767, and this is the
value carried by the axis-2 (left) and axis-5 (right) trigger events
of `updateEvents`. -/
theorem trigger_axis_remap (raw : Nat) (h : raw < 256) :
    triggerAxisValue raw = (raw * 256 + raw : Int) - 32768 ∧
    triggerAxisValue 0 = -32768 ∧
    triggerAxisValue 255 = 32767 ∧
    (∀ (xpad : XINPUT_GAMEPAD) (prev : JoyState),
      ((xpad.bLeftTrigger : Int) ≠ prev.axes 2 →
        Event.axisEvent 2 (triggerAxisValue xpad.bLeftTrigger) ∈
          updateEvents xpad prev) ∧
      ((xpad.bRightTrigger : Int) ≠ prev.axes 5 →
        Event.axisEvent 5 (triggerAxisValue xpad.bRightTrigger) ∈
          updateEvents xpad prev)) := by
  refine ⟨?_, by decide, by decide, ?_⟩
  · unfold triggerAxisValue
    rw [shiftLeft_lor_eq_mul_add ⟨raw, h⟩]
    push_cast
    ring
  · intro xpad prev
    constructor <;> intro hne <;>
      simp [updateEvents, hne, List.mem_append]

/-- Witness for `trigger_axis_remap` at raw = 100. -/
theorem trigger_axis_remap_witness :
    (100 : Nat) < 256 ∧ triggerAxisValue 100 = (100 * 256 + 100 : Int) - 32768 :=
  ⟨by norm_num, (trigger_axis_remap 100 (by norm_num)).1⟩

/-- C4 counterexample: a slot whose expiry (5) has elapsed at tick time
(now = 10) with stored magnitudes (1000, 2000). The update issues the
single zero-magnitude command and unsets the expiry, but the stored
magnitude pair is NOT cleared to (0, 0): it stays (1000, 2000). -/
theorem rumble_expiry_clear_counterexample :
    ((5 : Nat) ≠ 0 ∧ 10 > 5) ∧
    (update_rumble_expiry 10 ⟨fun _ => 0, 1000, 2000, 5⟩).2 = [(0, 0)] ∧
    (update_rumble_expiry 10 ⟨fun _ => 0, 1000, 2000, 5⟩).1.rumble_expiry = 0 ∧
    (update_rumble_expiry 10 ⟨fun _ => 0, 1000, 2000, 5⟩).1.current_rumble0 = 1000 ∧
    (update_rumble_expiry 10 ⟨fun _ => 0, 1000, 2000, 5⟩).1.current_rumble1 = 2000 ∧
    ¬ ((update_rumble_expiry 10 ⟨fun _ => 0, 1000, 2000, 5⟩).1.current_rumble0 = 0 ∧
       (update_rumble_expiry 10 ⟨fun _ => 0, 1000, 2000, 5⟩).1.current_rumble1 = 0) := by
  decide

/-- C4 (amended): when the expiry is set and has elapsed, the update
tick issues exactly one zero-magnitude rumble command and unsets the
expiry, leaving the stored magnitude pair (and the raw buffer)
unchanged; before the deadline the tick issues nothing and leaves the
whole slot unchanged, so a query still reports the stored magnitudes. -/
theorem rumble_expiry_amended (now : Nat) (hw : joystick_hwdata)
    (hset : hw.rumble_expiry ≠ 0) (helapsed : now > hw.rumble_expiry) :
    (update_rumble_expiry now hw).2 = [(0, 0)] ∧
    (update_rumble_expiry now hw).1.rumble_expiry = 0 ∧
    (update_rumble_expiry now hw).1.current_rumble0 = hw.current_rumble0 ∧
    (update_rumble_expiry now hw).1.current_rumble1 = hw.current_rumble1 ∧
    (update_rumble_expiry now hw).1.raw_data = hw.raw_data ∧
    (∀ (now2 : Nat) (hw2 : joystick_hwdata), now2 ≤ hw2.rumble_expiry →
      update_rumble_expiry now2 hw2 = (hw2, [])) := by
  have hcond : hw.rumble_expiry ≠ 0 ∧ now > hw.rumble_expiry := ⟨hset, helapsed⟩
  simp only [update_rumble_expiry, if_pos hcond]
  refine ⟨trivial, trivial, trivial, trivial, trivial, ?_⟩
  intro now2 hw2 hle
  have hneg : ¬ (hw2.rumble_expiry ≠ 0 ∧ now2 > hw2.rumble_expiry) := by omega
  simp only [update_rumble_expiry, if_neg hneg]

/-- Witness for `rumble_expiry_amended` at now = 10, slot (3, 4, 5). -/
theorem rumble_expiry_amended_witness :
    (update_rumble_expiry 10 ⟨fun _ => 0, 3, 4, 5⟩).2 = [(0, 0)] ∧
    (update_rumble_expiry 10 ⟨fun _ => 0, 3, 4, 5⟩).1.rumble_expiry = 0 ∧
    (update_rumble_expiry 10 ⟨fun _ => 0, 3, 4, 5⟩).1.current_rumble0 = 3 := by
  have h := rumble_expiry_amended 10 ⟨fun _ => 0, 3, 4, 5⟩ (by decide) (by decide)
  exact ⟨h.1, h.2.1, h.2.2.1⟩

/-- C5: the rumble encoder fills each family's fixed template at fixed
offsets: Xbox360 wireless/wired insert only the high byte of each
magnitude, OriginalXbox inserts both bytes low-frequency first,
XboxOne inserts the magnitudes divided by 655 (0-100 scale), and any
unrecognized family tag yields no packet and C return value -1. -/
theorem rumble_encode_layout (low high : Nat)
    (hl : low < 65536) (hh : high < 65536) :
    xboxjoy_rumble_encode .XBOX360_WIRELESS low high =
      some [0x00, 0x01, 0x0F, 0xC0, 0x00, low / 256, high / 256, 0x00] ∧
    xboxjoy_rumble_encode .XBOX360_WIRED low high =
      some [0x00, 0x08, 0x00, low / 256, high / 256, 0x00, 0x00, 0x00] ∧
    xboxjoy_rumble_encode .XBOXOG_CONTROLLER low high =
      some [0x00, 0x06, low % 256, low / 256, high % 256, high / 256] ∧
    xboxjoy_rumble_encode .XBOXONE low high =
      some [0x09, 0x00, 0x00, 0x09, 0x00, 0x0f, 0x00, 0x00,
            low / 655, high / 655, 0xFF, 0x00, 0xEB] ∧
    (∀ tag writeOk, xboxjoy_rumble_encode (.other tag) low high = none ∧
       xboxjoy_rumble (.other tag) low high writeOk = (none, -1)) := by
  have e1 : (low >>> 8) % 256 = low / 256 := by
    rw [Nat.shiftRight_eq_div_pow]; omega
  have e2 : (high >>> 8) % 256 = high / 256 := by
    rw [Nat.shiftRight_eq_div_pow]; omega
  have e3 : (low / 655) % 256 = low / 655 := by omega
  have e4 : (high / 655) % 256 = high / 655 := by omega
  refine ⟨?_, ?_, ?_, ?_, ?_⟩ <;>
    simp [xboxjoy_rumble_encode, xboxjoy_rumble, e1, e2, e3, e4]

/-- Witness for `rumble_encode_layout` at (0x1234, 0xABCD). -/
theorem rumble_encode_layout_witness :
    xboxjoy_rumble_encode .XBOXOG_CONTROLLER 0x1234 0xABCD =
      some [0x00, 0x06, 0x34, 0x12, 0xCD, 0xAB] := by
  have h := (rumble_encode_layout 0x1234 0xABCD (by norm_num) (by norm_num)).2.2.1
  simpa using h

/-- C6: a rumble request whose magnitudes equal the slot's stored pair
only refreshes the expiry deadline to `(now + duration) mod 2^32`,
hands no packet to the transport, leaves every other slot field
unchanged and returns success (0). -/
theorem rumble_identical_refresh (family : Family) (now : Nat)
    (hw : joystick_hwdata) (low high duration : Nat) (writeOk : Bool)
    (h0 : hw.current_rumble0 = low) (h1 : hw.current_rumble1 = high) :
    SDL_XBOX_JoystickRumble family now hw low high duration writeOk =
      ({ hw with rumble_expiry := (now + duration) % 4294967296 }, none, 0) := by
  simp [SDL_XBOX_JoystickRumble, h0, h1]

/-- Witness for `rumble_identical_refresh`: slot stores (7, 9); a
request for (7, 9) with duration 50 at tick 100 only sets expiry 150. -/
theorem rumble_identical_refresh_witness :
    SDL_XBOX_JoystickRumble .XBOXONE 100 ⟨fun _ => 0, 7, 9, 0⟩ 7 9 50 true =
      (⟨fun _ => 0, 7, 9, 150⟩, none, 0) :=
  (rumble_identical_refresh .XBOXONE 100 ⟨fun _ => 0, 7, 9, 0⟩ 7 9 50 true
    rfl rfl).trans rfl

/-- Out-of-range lemma for the device-list scan loop: the scan runs
off the list end onto the `assert(0)` path. -/
theorem hdev_scan_assertNull (devs : List Family) : ∀ target i : Nat,
    (devs.filter isGamepad).length + i ≤ target →
    hdev_scan devs target i = .assertNull := by
  induction devs with
  | nil => intro target i _; rfl
  | cons f rest ih =>
      intro target i h
      by_cases hg : isGamepad f
      · rw [List.filter_cons_of_pos hg, List.length_cons] at h
        have hne : i ≠ target := by omega
        simp only [hdev_scan, hg, if_true, if_neg hne]
        exact ih target (i + 1) (by omega)
      · rw [List.filter_cons_of_neg hg] at h
        simp only [hdev_scan, hg]
        simpa using ih target i h

/-- C8 counterexample: resolving index 0 with no devices connected —
an out-of-range index the claim covers — drives the scan onto the
`assert(0); return hdev` path (`ResolveOutcome.assertNull`), not onto
any in-loop `found` return: in a default assert-enabled build the
resolution aborts there instead of reporting not-found, contrary to
the claim's "rather than corrupting state or aborting". -/
theorem resolve_out_of_range_asserts :
    hdev_from_device_index [] 0 = ResolveOutcome.assertNull ∧
    hdev_from_device_index [Family.other 3, Family.XBOXONE] 1 =
      ResolveOutcome.assertNull := by
  decide

/-- C8 (amended): a device index at or beyond the number of connected
recognized-family devices (in particular, any index when none are
connected) always sends the resolution onto the `assert(0)` path,
which aborts in assert-enabled builds; in an `NDEBUG` build, where the
assert is a no-op, resolution returns the null device (not-found)
without corrupting state, and open with such an index returns -1
without retaining a slot or installing a read callback. -/
theorem open_out_of_range_ndebug (devs : List Family) (idx : Nat)
    (h : (devs.filter isGamepad).length ≤ idx) :
    hdev_from_device_index devs idx = ResolveOutcome.assertNull ∧
    hdev_resolve_ndebug devs idx = none ∧
    SDL_XBOX_JoystickOpen devs idx = (-1, false, false) := by
  have hn : hdev_scan devs idx 0 = .assertNull :=
    hdev_scan_assertNull devs idx 0 (by omega)
  refine ⟨hn, ?_, ?_⟩ <;>
    simp [SDL_XBOX_JoystickOpen, hdev_resolve_ndebug,
      hdev_from_device_index, hn]

/-- Witness for `open_out_of_range_ndebug`: index 1 with a single
connected gamepad (plus one unrecognized device). -/
theorem open_out_of_range_ndebug_witness :
    hdev_from_device_index [Family.XBOX360_WIRED, Family.other 7] 1 =
      ResolveOutcome.assertNull ∧
    hdev_resolve_ndebug [Family.XBOX360_WIRED, Family.other 7] 1 = none ∧
    SDL_XBOX_JoystickOpen [Family.XBOX360_WIRED, Family.other 7] 1 =
      (-1, false, false) :=
  open_out_of_range_ndebug [Family.XBOX360_WIRED, Family.other 7] 1 (by decide)

/-- C10: an accepted report longer than the 32-byte buffer is copied
only in its first 32 bytes (indices ≥ 32 of the slot buffer are never
written); a report of length at most 32 is copied for exactly its
received length, the tail of the buffer being left unchanged. -/
theorem read_callback_copy_bounds (family : Family) (status : Int)
    (hasJoy : Bool) (rdata : Nat → Nat) (data_len : Nat) (buf : Nat → Nat)
    (hacc : report_accepted family status hasJoy rdata = true) :
    (data_len > 32 →
      (∀ i, i < 32 →
        xboxjoy_int_read_callback family status hasJoy rdata data_len buf i
          = rdata i) ∧
      (∀ i, 32 ≤ i →
        xboxjoy_int_read_callback family status hasJoy rdata data_len buf i
          = buf i)) ∧
    (data_len ≤ 32 →
      (∀ i, i < data_len →
        xboxjoy_int_read_callback family status hasJoy rdata data_len buf i
          = rdata i) ∧
      (∀ i, data_len ≤ i →
        xboxjoy_int_read_callback family status hasJoy rdata data_len buf i
          = buf i)) := by
  constructor
  · intro hgt
    have hcap : cappedLen data_len = 32 := by
      simp only [cappedLen, MAX_PACKET_SIZE]
      split <;> omega
    constructor <;> intro i hi <;>
      simp only [xboxjoy_int_read_callback, hacc, if_true, memcpyReport, hcap]
    · rw [if_pos hi]
    · rw [if_neg (by omega)]
  · intro hle
    have hcap : cappedLen data_len = data_len := by
      simp only [cappedLen, MAX_PACKET_SIZE]
      split <;> omega
    constructor <;> intro i hi <;>
      simp only [xboxjoy_int_read_callback, hacc, if_true, memcpyReport, hcap]
    · rw [if_pos hi]
    · rw [if_neg (by omega)]

/-- Witness for `read_callback_copy_bounds`: a 40-byte accepted XboxOne
report copies byte 5 but leaves byte 33 of the buffer untouched. -/
theorem read_callback_copy_bounds_witness :
    report_accepted .XBOXONE 0 true (fun i => if i = 0 then 0x20 else i) = true ∧
    xboxjoy_int_read_callback .XBOXONE 0 true
      (fun i => if i = 0 then 0x20 else i) 40 (fun _ => 99) 5 = 5 ∧
    xboxjoy_int_read_callback .XBOXONE 0 true
      (fun i => if i = 0 then 0x20 else i) 40 (fun _ => 99) 33 = 99 := by
  have h := read_callback_copy_bounds .XBOXONE 0 true
    (fun i => if i = 0 then 0x20 else i) 40 (fun _ => 99) rfl
  exact ⟨rfl, ((h.1 (by norm_num)).1 5 (by norm_num)).trans rfl,
             ((h.1 (by norm_num)).2 33 (by norm_num)).trans rfl⟩

/-- The decoded state agrees with the stored previous snapshot under
exactly the comparisons `SDL_XBOX_JoystickUpdate` performs: the
derived hat against `hats[0]`, the ten `btn_map` buttons against
`buttons[i]`, the raw trigger bytes against the stored axis-2/axis-5
values (the C `int` comparison), and the four stick values against
the stored axis-0/1/3/4 values. -/
def stateMatches (xpad : XINPUT_GAMEPAD) (prev : JoyState) : Prop :=
  deriveHat xpad.wButtons = prev.hat ∧
  (∀ p ∈ btn_map, prev.buttons p.1 = ((xpad.wButtons &&& p.2) != 0)) ∧
  (xpad.bLeftTrigger : Int) = prev.axes 2 ∧
  (xpad.bRightTrigger : Int) = prev.axes 5 ∧
  xpad.sThumbLX = prev.axes 0 ∧
  xpad.sThumbLY = prev.axes 1 ∧
  xpad.sThumbRX = prev.axes 3 ∧
  xpad.sThumbRY = prev.axes 4

/-- C1: when the newly decoded state equals the stored previous state
under every comparison the update performs (hat, ten buttons, two
trigger axes, four stick axes), the per-tick diff emits no events at
all. -/
theorem update_no_events_when_unchanged (xpad : XINPUT_GAMEPAD)
    (prev : JoyState) (h : stateMatches xpad prev) :
    updateEvents xpad prev = [] := by
  obtain ⟨hh, hb, hlt, hrt, hlx, hly, hrx, hry⟩ := h
  simp only [updateEvents, hh, hlt, hrt, hlx, hly, hrx, hry, ne_eq,
    not_true_eq_false, if_false, List.append_nil, List.nil_append]
  rw [List.filterMap_eq_nil_iff]
  intro p hp
  rw [hb p hp]
  simp

/-- Witness for `update_no_events_when_unchanged`: the all-zero decoded
state against a fully centered/released stored state. -/
theorem update_no_events_when_unchanged_witness :
    updateEvents ⟨0, 0, 0, 0, 0, 0, 0⟩ ⟨0, fun _ => false, fun _ => 0⟩ = [] :=
  update_no_events_when_unchanged ⟨0, 0, 0, 0, 0, 0, 0⟩
    ⟨0, fun _ => false, fun _ => 0⟩
    (by unfold stateMatches; refine ⟨rfl, by decide, rfl, rfl, rfl, rfl, rfl, rfl⟩)

/-- The read callback accepts bytes only when the family-specific
structural check (as worded by the spec) passes. -/
theorem accepted_implies_spec (family : Family) (status : Int)
    (hasJoy : Bool) (rdata : Nat → Nat)
    (h : report_accepted family status hasJoy rdata = true) :
    familyCheckSpec family rdata = true := by
  cases family with
  | XBOXOG_CONTROLLER =>
      simp only [report_accepted] at h
      split at h
      · exact absurd h (by simp)
      · split at h
        · exact absurd h (by simp)
        · rename_i hlt
          simp only [familyCheckSpec, decide_eq_true_eq]
          omega
  | XBOX360_WIRED =>
      simp only [report_accepted] at h
      split at h
      · exact absurd h (by simp)
      · split at h
        · exact absurd h (by simp)
        · rename_i hlt
          simp only [familyCheckSpec, decide_eq_true_eq]
          omega
  | XBOX360_WIRELESS =>
      simp only [report_accepted] at h
      split at h
      · exact absurd h (by simp)
      · split at h
        · exact absurd h (by simp)
        · rename_i hcond
          push_neg at hcond
          simp only [familyCheckSpec, Bool.and_eq_true, beq_iff_eq]
          refine ⟨?_, hcond.2⟩
          have h1 := hcond.1
          rw [Nat.and_one_is_mod] at h1
          rw [Nat.testBit_zero]
          simp only [decide_eq_true_eq]
          omega
  | XBOXONE =>
      simp only [report_accepted] at h
      split at h
      · exact absurd h (by simp)
      · split at h
        · exact absurd h (by simp)
        · rename_i hcond
          push_neg at hcond
          simp only [familyCheckSpec, beq_iff_eq]
          exact hcond
  | other tag =>
      simp only [report_accepted] at h
      split at h
      · exact absurd h (by simp)
      · exact absurd h (by simp)

/-- C3: the read-completion handler accepts bytes as an input report
only if the family-specific structural check passes (OriginalXbox and
Xbox360Wired: byte 1 ≥ 0x14; Xbox360Wireless: bit 0 of byte 1 set and
byte 5 = 0x13; XboxOne: byte 0 = 0x20; any other tag: never), and when
the check fails the stored raw buffer is left unchanged, so a
subsequent update tick reuses the previous state and emits no events
if the previous tick already emitted none. -/
theorem read_callback_validation (family : Family) (status : Int)
    (hasJoy : Bool) (rdata : Nat → Nat) (data_len : Nat) (buf : Nat → Nat)
    (prev : JoyState) :
    (report_accepted family status hasJoy rdata = true →
      familyCheckSpec family rdata = true) ∧
    (familyCheckSpec family rdata = false →
      xboxjoy_int_read_callback family status hasJoy rdata data_len buf = buf ∧
      (tickEvents family buf prev = [] →
        tickEvents family
          (xboxjoy_int_read_callback family status hasJoy rdata data_len buf)
          prev = [])) := by
  refine ⟨accepted_implies_spec family status hasJoy rdata, ?_⟩
  intro hspec
  have hacc : report_accepted family status hasJoy rdata = false := by
    cases hcc : report_accepted family status hasJoy rdata
    · rfl
    · have := accepted_implies_spec family status hasJoy rdata hcc
      rw [hspec] at this
      exact absurd this (by simp)
  have hbuf : xboxjoy_int_read_callback family status hasJoy rdata data_len buf
      = buf := by
    simp [xboxjoy_int_read_callback, hacc]
  exact ⟨hbuf, fun ht => by rw [hbuf]; exact ht⟩

/-- Witness for `read_callback_validation`: an all-zero byte sequence
fails the XboxOne check (byte 0 ≠ 0x20); the buffer is untouched and a
tick that previously emitted nothing still emits nothing. -/
theorem read_callback_validation_witness :
    familyCheckSpec .XBOXONE (fun _ => 0) = false ∧
    xboxjoy_int_read_callback .XBOXONE 0 true (fun _ => 0) 20 (fun _ => 0)
      = (fun _ => 0) ∧
    tickEvents .XBOXONE
      (xboxjoy_int_read_callback .XBOXONE 0 true (fun _ => 0) 20 (fun _ => 0))
      ⟨0, fun _ => false, fun _ => 0⟩ = [] := by
  have h := (read_callback_validation .XBOXONE 0 true (fun _ => 0) 20
    (fun _ => 0) ⟨0, fun _ => false, fun _ => 0⟩).2 rfl
  exact ⟨rfl, h.1, h.2 (by rfl)⟩

/-- In the OriginalXbox decode, the LeftShoulder bit of the button word
comes only from analog byte 9 against the deadzone. -/
theorem og_wButtons_land_left_shoulder (r : Nat → Nat) :
    og_wButtons r &&& XINPUT_GAMEPAD_LEFT_SHOULDER =
      if byte r 9 > BUTTON_DEADZONE then XINPUT_GAMEPAD_LEFT_SHOULDER else 0 := by
  simp only [og_wButtons, bmap, land_lor_distrib, ite_land]
  simp [XINPUT_GAMEPAD_DPAD_UP, XINPUT_GAMEPAD_DPAD_DOWN,
    XINPUT_GAMEPAD_DPAD_LEFT, XINPUT_GAMEPAD_DPAD_RIGHT,
    XINPUT_GAMEPAD_START, XINPUT_GAMEPAD_BACK, XINPUT_GAMEPAD_LEFT_THUMB,
    XINPUT_GAMEPAD_RIGHT_THUMB, XINPUT_GAMEPAD_LEFT_SHOULDER,
    XINPUT_GAMEPAD_RIGHT_SHOULDER, XINPUT_GAMEPAD_A, XINPUT_GAMEPAD_B,
    XINPUT_GAMEPAD_X, XINPUT_GAMEPAD_Y, BUTTON_DEADZONE,
    show (1 &&& 256 : Nat) = 0 from rfl, show (2 &&& 256 : Nat) = 0 from rfl,
    show (4 &&& 256 : Nat) = 0 from rfl, show (8 &&& 256 : Nat) = 0 from rfl,
    show (16 &&& 256 : Nat) = 0 from rfl, show (32 &&& 256 : Nat) = 0 from rfl,
    show (64 &&& 256 : Nat) = 0 from rfl, show (128 &&& 256 : Nat) = 0 from rfl,
    show (512 &&& 256 : Nat) = 0 from rfl, show (4096 &&& 256 : Nat) = 0 from rfl,
    show (8192 &&& 256 : Nat) = 0 from rfl, show (16384 &&& 256 : Nat) = 0 from rfl,
    show (32768 &&& 256 : Nat) = 0 from rfl]

/-- In the OriginalXbox decode, the RightShoulder bit of the button
word comes only from analog byte 8 against the deadzone. -/
theorem og_wButtons_land_right_shoulder (r : Nat → Nat) :
    og_wButtons r &&& XINPUT_GAMEPAD_RIGHT_SHOULDER =
      if byte r 8 > BUTTON_DEADZONE then XINPUT_GAMEPAD_RIGHT_SHOULDER else 0 := by
  simp only [og_wButtons, bmap, land_lor_distrib, ite_land]
  simp [XINPUT_GAMEPAD_DPAD_UP, XINPUT_GAMEPAD_DPAD_DOWN,
    XINPUT_GAMEPAD_DPAD_LEFT, XINPUT_GAMEPAD_DPAD_RIGHT,
    XINPUT_GAMEPAD_START, XINPUT_GAMEPAD_BACK, XINPUT_GAMEPAD_LEFT_THUMB,
    XINPUT_GAMEPAD_RIGHT_THUMB, XINPUT_GAMEPAD_LEFT_SHOULDER,
    XINPUT_GAMEPAD_RIGHT_SHOULDER, XINPUT_GAMEPAD_A, XINPUT_GAMEPAD_B,
    XINPUT_GAMEPAD_X, XINPUT_GAMEPAD_Y, BUTTON_DEADZONE,
    show (1 &&& 512 : Nat) = 0 from rfl, show (2 &&& 512 : Nat) = 0 from rfl,
    show (4 &&& 512 : Nat) = 0 from rfl, show (8 &&& 512 : Nat) = 0 from rfl,
    show (16 &&& 512 : Nat) = 0 from rfl, show (32 &&& 512 : Nat) = 0 from rfl,
    show (64 &&& 512 : Nat) = 0 from rfl, show (128 &&& 512 : Nat) = 0 from rfl,
    show (256 &&& 512 : Nat) = 0 from rfl, show (4096 &&& 512 : Nat) = 0 from rfl,
    show (8192 &&& 512 : Nat) = 0 from rfl, show (16384 &&& 512 : Nat) = 0 from rfl,
    show (32768 &&& 512 : Nat) = 0 from rfl]

/-- C7: for an OriginalXbox report, the decoder sets LeftShoulder
exactly when analog byte 9 exceeds the 0x20 deadzone and RightShoulder
exactly when analog byte 8 does, and the two shoulder bits are
unaffected by the 16-bit button bitmask at bytes 2-3 (two reports that
differ only there decode to identical shoulder bits). -/
theorem og_shoulder_from_analog (rdata rdata2 : Nat → Nat)
    (hagree : ∀ i, i ≠ 2 → i ≠ 3 → rdata i = rdata2 i) :
    (∀ xpad, xboxjoy_parse_input_data .XBOXOG_CONTROLLER rdata = some xpad →
      ((xpad.wButtons &&& XINPUT_GAMEPAD_LEFT_SHOULDER ≠ 0 ↔
          BUTTON_DEADZONE < byte rdata 9) ∧
       (xpad.wButtons &&& XINPUT_GAMEPAD_RIGHT_SHOULDER ≠ 0 ↔
          BUTTON_DEADZONE < byte rdata 8))) ∧
    og_wButtons rdata &&& XINPUT_GAMEPAD_LEFT_SHOULDER =
      og_wButtons rdata2 &&& XINPUT_GAMEPAD_LEFT_SHOULDER ∧
    og_wButtons rdata &&& XINPUT_GAMEPAD_RIGHT_SHOULDER =
      og_wButtons rdata2 &&& XINPUT_GAMEPAD_RIGHT_SHOULDER := by
  have h9 : byte rdata 9 = byte rdata2 9 := by
    unfold byte
    rw [hagree 9 (by norm_num) (by norm_num)]
  have h8 : byte rdata 8 = byte rdata2 8 := by
    unfold byte
    rw [hagree 8 (by norm_num) (by norm_num)]
  refine ⟨?_, ?_, ?_⟩
  · intro xpad hx
    have hw : xpad.wButtons = og_wButtons rdata := by
      simp only [xboxjoy_parse_input_data, Option.some.injEq] at hx
      rw [← hx]
    rw [hw, og_wButtons_land_left_shoulder, og_wButtons_land_right_shoulder]
    constructor
    · split <;> rename_i hc <;>
        simp_all [XINPUT_GAMEPAD_LEFT_SHOULDER]
    · split <;> rename_i hc <;>
        simp_all [XINPUT_GAMEPAD_RIGHT_SHOULDER]
  · rw [og_wButtons_land_left_shoulder, og_wButtons_land_left_shoulder, h9]
  · rw [og_wButtons_land_right_shoulder, og_wButtons_land_right_shoulder, h8]

/-- Witness for `og_shoulder_from_analog`: byte 9 = 0x30 presses the
left shoulder, and setting the bitmask byte 2 to 0xFF changes nothing
about the shoulder bits. -/
theorem og_shoulder_from_analog_witness :
    og_wButtons (fun i => if i = 9 then 0x30 else 0) &&&
        XINPUT_GAMEPAD_LEFT_SHOULDER =
      og_wButtons (fun i => if i = 9 then 0x30 else if i = 2 then 0xFF else 0) &&&
        XINPUT_GAMEPAD_LEFT_SHOULDER ∧
    og_wButtons (fun i => if i = 9 then 0x30 else 0) &&&
        XINPUT_GAMEPAD_LEFT_SHOULDER = 0x100 := by
  have h := og_shoulder_from_analog (fun i => if i = 9 then 0x30 else 0)
    (fun i => if i = 9 then 0x30 else if i = 2 then 0xFF else 0)
    (by intro i h2 h3; by_cases h9 : i = 9 <;> simp [h9, h2])
  exact ⟨h.2.1, by decide⟩

/-- The (single) hat event slot of one update tick. -/
def hatEventAt (xpad : XINPUT_GAMEPAD) (prev : JoyState) : List Event :=
  if deriveHat xpad.wButtons ≠ prev.hat
    then [Event.hatEvent 0 (deriveHat xpad.wButtons)] else []

/-- The XINPUT mask assigned to each SDL button index by `btn_map`. -/
def buttonMaskAt (i : Nat) : Nat :=
  match i with
  | 0 => XINPUT_GAMEPAD_A
  | 1 => XINPUT_GAMEPAD_B
  | 2 => XINPUT_GAMEPAD_X
  | 3 => XINPUT_GAMEPAD_Y
  | 4 => XINPUT_GAMEPAD_LEFT_SHOULDER
  | 5 => XINPUT_GAMEPAD_RIGHT_SHOULDER
  | 6 => XINPUT_GAMEPAD_BACK
  | 7 => XINPUT_GAMEPAD_START
  | 8 => XINPUT_GAMEPAD_LEFT_THUMB
  | 9 => XINPUT_GAMEPAD_RIGHT_THUMB
  | _ => 0

/-- The button event (if any) an update tick emits for button `i`. -/
def buttonEventAt (xpad : XINPUT_GAMEPAD) (prev : JoyState) (i : Nat) :
    Option Event :=
  if prev.buttons i != ((xpad.wButtons &&& buttonMaskAt i) != 0)
    then some (Event.buttonEvent i ((xpad.wButtons &&& buttonMaskAt i) != 0))
    else none

/-- The axis event (if any) an update tick emits for axis `a`. -/
def axisEventAt (xpad : XINPUT_GAMEPAD) (prev : JoyState) (a : Nat) :
    Option Event :=
  match a with
  | 0 => if xpad.sThumbLX ≠ prev.axes 0
           then some (Event.axisEvent 0 xpad.sThumbLX) else none
  | 1 => if xpad.sThumbLY ≠ prev.axes 1
           then some (Event.axisEvent 1 (cnot16 xpad.sThumbLY)) else none
  | 2 => if (xpad.bLeftTrigger : Int) ≠ prev.axes 2
           then some (Event.axisEvent 2 (triggerAxisValue xpad.bLeftTrigger))
           else none
  | 3 => if xpad.sThumbRX ≠ prev.axes 3
           then some (Event.axisEvent 3 xpad.sThumbRX) else none
  | 4 => if xpad.sThumbRY ≠ prev.axes 4
           then some (Event.axisEvent 4 (cnot16 xpad.sThumbRY)) else none
  | 5 => if (xpad.bRightTrigger : Int) ≠ prev.axes 5
           then some (Event.axisEvent 5 (triggerAxisValue xpad.bRightTrigger))
           else none
  | _ => none

/-- `filterMap` over an association list agrees with `filterMap` over
its key list when the functions agree entrywise. -/
theorem filterMap_congr_fst (f : Nat × Nat → Option Event)
    (g : Nat → Option Event) :
    ∀ l : List (Nat × Nat), (∀ p ∈ l, f p = g p.1) →
      l.filterMap f = (l.map Prod.fst).filterMap g := by
  intro l
  induction l with
  | nil => intro _; rfl
  | cons p rest ih =>
      intro h
      have hrest := ih (fun q hq => h q (List.mem_cons_of_mem p hq))
      simp only [List.filterMap_cons, List.map_cons,
        h p (List.mem_cons_self p rest), hrest]

/-- The six sequential axis comparisons of `SDL_XBOX_JoystickUpdate`
enumerate the axes in the fixed order 2, 5, 0, 1, 3, 4. -/
theorem axis_events_enum (xpad : XINPUT_GAMEPAD) (prev : JoyState) :
    (if (xpad.bLeftTrigger : Int) ≠ prev.axes 2
       then [Event.axisEvent 2 (triggerAxisValue xpad.bLeftTrigger)] else []) ++
    ((if (xpad.bRightTrigger : Int) ≠ prev.axes 5
       then [Event.axisEvent 5 (triggerAxisValue xpad.bRightTrigger)] else []) ++
    ((if xpad.sThumbLX ≠ prev.axes 0
       then [Event.axisEvent 0 xpad.sThumbLX] else []) ++
    ((if xpad.sThumbLY ≠ prev.axes 1
       then [Event.axisEvent 1 (cnot16 xpad.sThumbLY)] else []) ++
    ((if xpad.sThumbRX ≠ prev.axes 3
       then [Event.axisEvent 3 xpad.sThumbRX] else []) ++
     (if xpad.sThumbRY ≠ prev.axes 4
       then [Event.axisEvent 4 (cnot16 xpad.sThumbRY)] else []))))) =
    [2, 5, 0, 1, 3, 4].filterMap (axisEventAt xpad prev) := by
  simp only [List.filterMap_cons, List.filterMap_nil, axisEventAt]
  by_cases h2 : (xpad.bLeftTrigger : Int) ≠ prev.axes 2 <;>
  by_cases h5 : (xpad.bRightTrigger : Int) ≠ prev.axes 5 <;>
  by_cases h0 : xpad.sThumbLX ≠ prev.axes 0 <;>
  by_cases h1 : xpad.sThumbLY ≠ prev.axes 1 <;>
  by_cases h3 : xpad.sThumbRX ≠ prev.axes 3 <;>
  by_cases h4 : xpad.sThumbRY ≠ prev.axes 4 <;>
  simp [h0, h1, h2, h3, h4, h5]

/-- C9: one update tick emits, in order, the hat event (if any), then
button events for the fixed enumeration 0..9, then axis events for the
fixed axis enumeration 2, 5, 0, 1, 3, 4; and two updates performed on
identical (current, previous) state pairs emit identical event
sequences. -/
theorem update_event_order (xpad : XINPUT_GAMEPAD) (prev : JoyState) :
    updateEvents xpad prev =
      hatEventAt xpad prev ++
      (List.range 10).filterMap (buttonEventAt xpad prev) ++
      [2, 5, 0, 1, 3, 4].filterMap (axisEventAt xpad prev) ∧
    (∀ (xpad2 : XINPUT_GAMEPAD) (prev2 : JoyState),
      xpad2 = xpad → prev2 = prev →
      updateEvents xpad2 prev2 = updateEvents xpad prev) := by
  constructor
  · have hmap : btn_map.map Prod.fst = List.range 10 := by rfl
    have hbtn : btn_map.filterMap (fun p =>
        if prev.buttons p.1 != ((xpad.wButtons &&& p.2) != 0)
          then some (Event.buttonEvent p.1 ((xpad.wButtons &&& p.2) != 0))
          else none) =
        (List.range 10).filterMap (buttonEventAt xpad prev) := by
      rw [← hmap]
      refine filterMap_congr_fst _ _ btn_map ?_
      intro p hp
      fin_cases hp <;> rfl
    simp only [updateEvents, hatEventAt, List.append_assoc, hbtn]
    rw [axis_events_enum]
  · intro xpad2 prev2 h1 h2
    rw [h1, h2]

/-- Witness for `update_event_order` at a concrete state pair (A button
newly pressed against a centered previous state). -/
theorem update_event_order_witness :
    updateEvents ⟨0x1000, 0, 0, 0, 0, 0, 0⟩ ⟨0, fun _ => false, fun _ => 0⟩ =
      hatEventAt ⟨0x1000, 0, 0, 0, 0, 0, 0⟩ ⟨0, fun _ => false, fun _ => 0⟩ ++
      (List.range 10).filterMap
        (buttonEventAt ⟨0x1000, 0, 0, 0, 0, 0, 0⟩ ⟨0, fun _ => false, fun _ => 0⟩) ++
      [2, 5, 0, 1, 3, 4].filterMap
        (axisEventAt ⟨0x1000, 0, 0, 0, 0, 0, 0⟩ ⟨0, fun _ => false, fun _ => 0⟩) ∧
    updateEvents ⟨0x1000, 0, 0, 0, 0, 0, 0⟩ ⟨0, fun _ => false, fun _ => 0⟩ =
      updateEvents ⟨0x1000, 0, 0, 0, 0, 0, 0⟩ ⟨0, fun _ => false, fun _ => 0⟩ := by
  have h := update_event_order ⟨0x1000, 0, 0, 0, 0, 0, 0⟩
    ⟨0, fun _ => false, fun _ => 0⟩
  exact ⟨h.1, h.2 _ _ rfl rfl⟩

end NxdkSDL
